import Mathlib

/-!
Verification of the segment-timeline / synchronization engine of the
stock-footage video generator.  Durations are modelled as exact rationals
(the Python code uses floats but performs no operation where rounding is
load-bearing for the properties below); external process invocations
(ffmpeg / ffprobe / HTTP providers) are modelled by the decision data the
code computes for them (filter parameters, codec choices, retry counts,
attempt orders), with an explicit success/failure flag where the code
branches on an exception.
-/

namespace VideoGen

/-! ## Synchronizer / narration merge (`generate_video_final.add_audio_to_video`) -/

/-- Failure mode of the merge-command construction: the Python code computes
`speed_factor = video_duration / audio_duration`, which raises
`ZeroDivisionError` when the probed audio duration is `0.0`. -/
inductive SyncFailure
  | zeroDivision
deriving DecidableEq

/-- The parts of the ffmpeg merge command that the replace-mode branch of
`add_audio_to_video` decides: an optional setpts speed factor on the video
stream, an optional tempo adjustment on the audio stream (the code never
produces one), the codec choices, and the shortest-stream truncation flag. -/
structure MergeCmd where
  videoSetpts : Option ℚ
  audioTempo : Option ℚ
  videoCodec : String
  audioCodec : String
  shortest : Bool
deriving DecidableEq

/-- Embedding of the replace-mode branch of `add_audio_to_video`
(src/generate_video_final.py lines 264-303): if the absolute difference of
the probed durations exceeds 2.0 s the video stream gets
`setpts=speed_factor*PTS` with `speed_factor = video/audio` (a division that
raises when the audio duration is zero); otherwise the video stream is
stream-copied.  In both branches the narration audio is mapped unchanged
(encoded as aac, never time-stretched) and `-shortest` truncates to the
shorter stream. -/
def add_audio_to_video_replace (video_duration audio_duration : ℚ) :
    Except SyncFailure MergeCmd :=
  if 2 < |video_duration - audio_duration| then
    if audio_duration = 0 then Except.error SyncFailure.zeroDivision
    else
      Except.ok
        { videoSetpts := some (video_duration / audio_duration)
          audioTempo := none
          videoCodec := "libx264"
          audioCodec := "aac"
          shortest := true }
  else
    Except.ok
      { videoSetpts := none
        audioTempo := none
        videoCodec := "copy"
        audioCodec := "aac"
        shortest := true }

/-! ## Segment planner (`generate_video_single.generate_single_video`) -/

/-- The fixed interleave pattern of src/generate_video_single.py line 52:
25 slots, 0 = stock video, 1 = still image (20 videos + 5 images). -/
def pattern : List ℕ :=
  [0, 0, 0, 0, 1, 0, 0, 0, 0, 1, 0, 0, 0, 0, 1, 0, 0, 0, 0, 1, 0, 0, 0, 0, 1]

/-- Per-clip base duration from the audio duration
(src/generate_video_single.py lines 56-60):
`max(2.0, min(2.5, audio_duration / 25.0))`. -/
def duration_per_clip_for (audio_duration : ℚ) : ℚ :=
  max 2 (min (5 / 2) (audio_duration / 25))

/-- Final per-slot duration (src/generate_video_single.py lines 83-84):
the base duration plus the per-slot jitter, re-clamped by
`max(2.0, min(3.0, segment_duration))`. -/
def segment_duration (base jitter : ℚ) : ℚ :=
  max 2 (min 3 (base + jitter))

/-! ## Segment generation loop state (`generate_single_video`, lines 75-130) -/

/-- Loop state of `generate_single_video`: the two pool cursors and the
segments produced so far, each recorded as (segment type, pool index of the
asset it consumed). -/
structure GenState where
  video_idx : ℕ
  image_idx : ℕ
  segments : List (ℕ × ℕ)
deriving DecidableEq

/-- One iteration of the pattern loop.  `ok pos` tells whether the external
render (ffmpeg trim / image-to-video) at position `pos` succeeded; on either
outcome the matching pool cursor advances (the code increments the index in
both the try and the except branch), and the segment is appended only on
success.  A slot whose pool is exhausted is skipped entirely. -/
def genStep (nV nI : ℕ) (ok : ℕ → Bool) (pos segment_type : ℕ)
    (s : GenState) : GenState :=
  if segment_type = 0 then
    if s.video_idx < nV then
      { video_idx := s.video_idx + 1
        image_idx := s.image_idx
        segments :=
          if ok pos then s.segments ++ [(0, s.video_idx)] else s.segments }
    else s
  else if segment_type = 1 then
    if s.image_idx < nI then
      { video_idx := s.video_idx
        image_idx := s.image_idx + 1
        segments :=
          if ok pos then s.segments ++ [(1, s.image_idx)] else s.segments }
    else s
  else s

/-- Folding the pattern loop over a list of (position, segment type) pairs. -/
def genRun (nV nI : ℕ) (ok : ℕ → Bool) :
    List (ℕ × ℕ) → GenState → GenState
  | [], s => s
  | pt :: rest, s => genRun nV nI ok rest (genStep nV nI ok pt.1 pt.2 s)

/-- The full `generate_single_video` loop over the fixed 25-slot pattern,
starting from empty pools cursors and no segments; `nV` and `nI` are the
sizes of the stock-video and image pools. -/
def generate_single_video_run (nV nI : ℕ) (ok : ℕ → Bool) : GenState :=
  genRun nV nI ok pattern.enum { video_idx := 0, image_idx := 0, segments := [] }

/-- Invariant of the generation loop: recorded segments are pairwise distinct
and every recorded pool index is below the matching cursor. -/
def GoodState (s : GenState) : Prop :=
  s.segments.Nodup ∧
  (∀ j : ℕ, (0, j) ∈ s.segments → j < s.video_idx) ∧
  (∀ j : ℕ, (1, j) ∈ s.segments → j < s.image_idx)

/-! ## Concatenation (`generate_video_final.concatenate_videos`) -/

/-- Crossfade overlap of `concatenate_with_smooth_transitions`
(src/generate_video_final.py line 170): 0.3 s. -/
def transition_duration : ℚ := 3 / 10

/-- The four possible behaviours of `concatenate_videos`. -/
inductive ConcatMode
  | raisesValueError (msg : String)
  | copySingle
  | crossfade (overlap : ℚ)
  | plain
deriving DecidableEq

/-- Embedding of the dispatch logic of `concatenate_videos`
(src/generate_video_final.py lines 96-132): empty input raises ValueError,
a single video is copied verbatim, and otherwise the crossfade path is taken
exactly when transitions are enabled and there are at most 10 clips. -/
def concatenate_videos_mode (n : ℕ) (with_transitions : Bool) : ConcatMode :=
  if n = 0 then ConcatMode.raisesValueError ("No videos to concatenate")
  else if n = 1 then ConcatMode.copySingle
  else if with_transitions = true ∧ n ≤ 10 then
    ConcatMode.crossfade transition_duration
  else ConcatMode.plain

/-- Outcome of `concatenate_with_smooth_transitions`
(src/generate_video_final.py lines 167-212): on any exception from the
crossfade render it falls back to `concatenate_videos_simple`. -/
inductive TransitionOutcome
  | crossfaded (overlap : ℚ)
  | plainFallback
deriving DecidableEq

/-- Success/failure behaviour of the crossfade composition, with the render
result abstracted as a flag. -/
def concatenate_with_smooth_transitions_outcome (renderOk : Bool) :
    TransitionOutcome :=
  if renderOk then TransitionOutcome.crossfaded transition_duration
  else TransitionOutcome.plainFallback

/-! ## Engagement overlays (`video_engagement.VideoEngagementOptimizer`) -/

/-- One timed overlay, as produced by `generate_engagement_points`. -/
structure OverlayPoint where
  text : String
  start : ℚ
  duration : ℚ
deriving DecidableEq

/-- Python `content.split('.')` over the character list: splits at every
period, keeping empty chunks, and yields one chunk even for empty input. -/
def split_on_period : List Char → List (List Char)
  | [] => [[]]
  | c :: rest =>
    if c = ('.' : Char) then [] :: split_on_period rest
    else
      match split_on_period rest with
      | [] => [[c]]
      | g :: gs => (c :: g) :: gs

/-- Python `str.strip()`: drop leading and trailing whitespace characters. -/
def strip_chars (cs : List Char) : List Char :=
  ((cs.dropWhile Char.isWhitespace).reverse.dropWhile Char.isWhitespace).reverse

/-- Embedding of src/video_engagement.py lines 355-356:
`sentences = content.split('.')[:5]` followed by
`[s.strip()[:50] for s in sentences if s.strip()]`. -/
def key_phrases (content : String) : List String :=
  ((split_on_period content.toList).take 5).filterMap (fun cs =>
    if strip_chars cs = [] then none
    else some (String.mk ((strip_chars cs).take 50)))

/-- Embedding of `generate_engagement_points`
(src/video_engagement.py lines 347-368): the phrases are spaced at
`interval = video_duration / (len(key_phrases) + 1)`, point `i` starting at
`interval * (i + 1)` with a fixed duration of 2.0 s. -/
def generate_engagement_points (video_duration : ℚ) (content : String) :
    List OverlayPoint :=
  (key_phrases content).enum.map (fun pr =>
    { text := pr.2
      start := video_duration / (((key_phrases content).length : ℚ) + 1) *
        ((pr.1 : ℚ) + 1)
      duration := 2 })

/-- The `enable=between(t, start, start + duration)` windows that
`add_text_overlay_intervals` builds, one drawtext filter per point
(src/video_engagement.py lines 185-203). -/
def overlay_enable_windows (text_points : List OverlayPoint) :
    List (ℚ × ℚ) :=
  text_points.map (fun p => (p.start, p.start + p.duration))

/-- Overlay burn-in (src/video_engagement.py lines 175-224): the drawtext
invocation either succeeds, yielding the new output path with the windows
burned in, or raises `CalledProcessError`, in which case the except branch
returns the input path unchanged (no window burned in). -/
def add_text_overlay_intervals (video_path : String)
    (text_points : List OverlayPoint) (output_path : String)
    (renderOk : Bool) : String × List (ℚ × ℚ) :=
  if renderOk then (output_path, overlay_enable_windows text_points)
  else (video_path, [])

/-- Call-to-action burn-in (src/video_engagement.py lines 264-302): the CTA
drawtext is enabled for `t > video_duration - 5` where the duration is
probed from the current timeline; on `CalledProcessError` the except branch
returns the input path unchanged (no CTA threshold burned in). -/
def add_call_to_action (video_path cta_text : String) (output_path : String)
    (video_duration : ℚ) (renderOk : Bool) : String × Option ℚ :=
  if renderOk then (output_path, some (video_duration - 5))
  else (video_path, none)

/-! ## Image provider chain (`generate_image.generate_images`) -/

/-- The image sources tried by `generate_images`, in code order, plus the
local placeholder renderer used as final fallback. -/
inductive Provider
  | pexels
  | unsplash
  | huggingface
  | stability
  | dalle
  | placeholder
deriving DecidableEq

/-- Which API keys are present in the environment; a keyed provider is only
attempted when its key is set (Unsplash needs no key and is always tried). -/
structure ApiEnv where
  pexels_key : Bool
  huggingface_key : Bool
  stability_key : Bool
  openai_key : Bool
deriving DecidableEq

/-- The ordered provider list `generate_images` walks for one image
(src/generate_image.py lines 52-88): Pexels, Unsplash, Hugging Face,
Stability, DALL-E, each gated by its environment key. -/
def provider_order (env : ApiEnv) : List Provider :=
  (if env.pexels_key then [Provider.pexels] else []) ++
    [Provider.unsplash] ++
    (if env.huggingface_key then [Provider.huggingface] else []) ++
    (if env.stability_key then [Provider.stability] else []) ++
    (if env.openai_key then [Provider.dalle] else [])

/-- Walk the provider list until one succeeds, returning the providers
attempted (in order) and the first succeeding one, if any.  `fails p = true`
means provider `p` raises, which the per-provider try/except swallows. -/
def attemptChain (fails : Provider → Bool) :
    List Provider → List Provider × Option Provider
  | [] => ([], none)
  | p :: rest =>
    if fails p then
      ((attemptChain fails rest).1.cons p, (attemptChain fails rest).2)
    else ([p], some p)

/-- Result of resolving one image: either some provider produced it, or the
iteration silently moved on without appending anything (`continue`). -/
inductive ImageResolution
  | resolved (p : Provider)
  | skippedImage
deriving DecidableEq

/-- Embedding of one iteration of the `generate_images` loop
(src/generate_image.py lines 42-105): walk the keyed chain; if every
provider failed, call the placeholder renderer; if that raises, the outer
except tries the placeholder once more, and if the second attempt also
raises the loop `continue`s, producing no image.  Returns the attempted
providers in order together with the outcome. -/
def resolve_one_image (env : ApiEnv) (fails : Provider → Bool)
    (second_placeholder_fails : Bool) : List Provider × ImageResolution :=
  match (attemptChain fails (provider_order env)).2 with
  | some p => ((attemptChain fails (provider_order env)).1, ImageResolution.resolved p)
  | none =>
    if fails Provider.placeholder then
      if second_placeholder_fails then
        ((attemptChain fails (provider_order env)).1 ++
          [Provider.placeholder, Provider.placeholder],
          ImageResolution.skippedImage)
      else
        ((attemptChain fails (provider_order env)).1 ++
          [Provider.placeholder, Provider.placeholder],
          ImageResolution.resolved Provider.placeholder)
    else
      ((attemptChain fails (provider_order env)).1 ++ [Provider.placeholder],
        ImageResolution.resolved Provider.placeholder)

/-- `max_retries` of `generate_with_huggingface`
(src/generate_image.py line 210). -/
def hf_max_retries : ℕ := 3

/-- The fixed delay slept before a same-provider retry on a 503 response
(src/generate_image.py line 216), in seconds. -/
def hf_retry_delay_seconds : ℕ := 20

/-- Outcome of the Hugging Face request loop: either the body of the last
response is written to disk, or a non-200 non-503 status raises. -/
inductive HFOutcome
  | savedBody (status : ℕ)
  | raisedStatus (status : ℕ)
deriving DecidableEq

/-- Unrolled embedding of the retry loop of `generate_with_huggingface`
(src/generate_image.py lines 210-227) for the statuses of the up to three
attempts: 503 sleeps and retries, any other non-200 status raises, 200
breaks and saves; when all three attempts return 503 the loop falls through
and the code saves the body of the last 503 response.  Returns the number
of requests made and the outcome. -/
def generate_with_huggingface_run (s0 s1 s2 : ℕ) : ℕ × HFOutcome :=
  if s0 = 503 then
    if s1 = 503 then
      if s2 = 503 then (3, HFOutcome.savedBody 503)
      else if s2 = 200 then (3, HFOutcome.savedBody 200)
      else (3, HFOutcome.raisedStatus s2)
    else if s1 = 200 then (2, HFOutcome.savedBody 200)
    else (2, HFOutcome.raisedStatus s1)
  else if s0 = 200 then (1, HFOutcome.savedBody 200)
  else (1, HFOutcome.raisedStatus s0)

/-! ## Theorems -/

/-- C1 (amended): for every probed video duration `v` and nonzero narration
duration `n`, the replace-mode merge applies the speed factor `v / n` to the
video stream's timestamps exactly when `|v - n| > 2.0`, and otherwise
stream-copies the video; in both branches the narration audio carries no
tempo adjustment (it is never time-stretched) and `-shortest` truncates to
the shorter stream. -/
theorem add_audio_sync_policy (v n : ℚ) (hn : n ≠ 0) :
    add_audio_to_video_replace v n =
      (if 2 < |v - n| then
        Except.ok
          { videoSetpts := some (v / n), audioTempo := none,
            videoCodec := "libx264", audioCodec := "aac", shortest := true }
      else
        Except.ok
          { videoSetpts := none, audioTempo := none,
            videoCodec := "copy", audioCodec := "aac", shortest := true }) := by
  unfold add_audio_to_video_replace
  split
  · simp [hn]
  · rfl

/-- Witness for C1 at `v = 10`, `n = 5`. -/
theorem add_audio_sync_policy_witness :
    add_audio_to_video_replace 10 5 =
      (if 2 < |(10 : ℚ) - 5| then
        Except.ok
          { videoSetpts := some ((10 : ℚ) / 5), audioTempo := none,
            videoCodec := "libx264", audioCodec := "aac", shortest := true }
      else
        Except.ok
          { videoSetpts := none, audioTempo := none,
            videoCodec := "copy", audioCodec := "aac", shortest := true }) :=
  add_audio_sync_policy 10 5 (by norm_num)

/-- C1 counterexample to the claim as stated: at probed durations
`v = 60`, `n = 0` we have `|v - n| > 2.0`, yet no speed factor is applied to
the video stream - the merge-command construction fails with the division
by zero raised while computing `speed_factor`. -/
theorem sync_zero_narration_counterexample :
    add_audio_to_video_replace 60 0 = Except.error SyncFailure.zeroDivision ∧
      2 < |(60 : ℚ) - 0| := by
  constructor
  · unfold add_audio_to_video_replace
    norm_num
  · norm_num

/-- C2: the per-slot plan starts from `audio_duration / 25` clamped to
`[2.0, 2.5]`; adding any per-slot jitter of magnitude at most 0.3 and
re-clamping leaves every slot's final duration in `[2.0, 3.0]` (and the
fixed pattern indeed has 25 slots). -/
theorem segment_duration_bounds (D jitter : ℚ) (hj : |jitter| ≤ 3 / 10) :
    2 ≤ duration_per_clip_for D ∧ duration_per_clip_for D ≤ 5 / 2 ∧
    2 ≤ segment_duration (duration_per_clip_for D) jitter ∧
    segment_duration (duration_per_clip_for D) jitter ≤ 3 ∧
    pattern.length = 25 := by
  refine ⟨le_max_left _ _, ?_, le_max_left _ _, ?_, by decide⟩
  · exact max_le (by norm_num) (min_le_left _ _)
  · exact max_le (by norm_num) (min_le_left _ _)

/-- Witness for C2 at `D = 62`, `jitter = 1/10`. -/
theorem segment_duration_bounds_witness :
    2 ≤ duration_per_clip_for 62 ∧ duration_per_clip_for 62 ≤ 5 / 2 ∧
    2 ≤ segment_duration (duration_per_clip_for 62) (1 / 10) ∧
    segment_duration (duration_per_clip_for 62) (1 / 10) ≤ 3 ∧
    pattern.length = 25 :=
  segment_duration_bounds 62 (1 / 10) (by rw [abs_le]; norm_num)

/-- C3: when the narration probe reports duration 0 (its failure sentinel),
the planner half of the code does fall back to the clamped fixed duration
2.0 s, but the merge step does not recover: `add_audio_to_video` computes
`speed_factor = video / 0`, which raises `ZeroDivisionError`, and the
orchestrator re-raises, so the pipeline aborts instead of completing. -/
theorem sync_zero_narration_aborts :
    duration_per_clip_for 0 = 2 ∧
    add_audio_to_video_replace 60 0 = Except.error SyncFailure.zeroDivision := by
  constructor
  · unfold duration_per_clip_for
    norm_num
  · unfold add_audio_to_video_replace
    norm_num

/-- C5: for two or more clips, `concatenate_videos` uses the 0.3 s crossfade
join exactly when transitions are enabled and there are at most 10 clips,
and plain concatenation otherwise (in particular for more than 10 clips);
further, an error inside the crossfade composition falls back to plain
concatenation instead of aborting. -/
theorem concatenate_transition_policy (n : ℕ) (wt : Bool) (h2 : 2 ≤ n) :
    concatenate_videos_mode n wt =
      (if wt = true ∧ n ≤ 10 then ConcatMode.crossfade transition_duration
       else ConcatMode.plain) ∧
    concatenate_with_smooth_transitions_outcome false =
      TransitionOutcome.plainFallback := by
  refine ⟨?_, rfl⟩
  unfold concatenate_videos_mode
  rw [if_neg (by omega), if_neg (by omega)]

/-- Witness for C5 at `n = 5` clips with transitions enabled. -/
theorem concatenate_transition_policy_witness :
    concatenate_videos_mode 5 true =
      (if true = true ∧ 5 ≤ 10 then ConcatMode.crossfade transition_duration
       else ConcatMode.plain) ∧
    concatenate_with_smooth_transitions_outcome false =
      TransitionOutcome.plainFallback :=
  concatenate_transition_policy 5 true (by norm_num)

/-- C7: whenever both probed durations are positive and differ by more than
2.0 s, the merge command carries the speed factor `v / n` on the video
stream, that factor is strictly positive, and it satisfies the exact
round-trip law `(v / n) * n = v`. -/
theorem align_round_trip (v n : ℚ) (hv : 0 < v) (hn : 0 < n)
    (hfar : 2 < |v - n|) :
    add_audio_to_video_replace v n =
      Except.ok
        { videoSetpts := some (v / n), audioTempo := none,
          videoCodec := "libx264", audioCodec := "aac", shortest := true } ∧
    0 < v / n ∧ (v / n) * n = v := by
  refine ⟨?_, div_pos hv hn, div_mul_cancel₀ v hn.ne'⟩
  unfold add_audio_to_video_replace
  rw [if_pos hfar, if_neg hn.ne']

/-- Witness for C7 at `v = 10`, `n = 5`. -/
theorem align_round_trip_witness :
    add_audio_to_video_replace 10 5 =
      Except.ok
        { videoSetpts := some ((10 : ℚ) / 5), audioTempo := none,
          videoCodec := "libx264", audioCodec := "aac", shortest := true } ∧
    0 < (10 : ℚ) / 5 ∧ ((10 : ℚ) / 5) * 5 = 10 :=
  align_round_trip 10 5 (by norm_num) (by norm_num) (by norm_num)

/-- C8: when the burn-in render raises, both overlay operations return the
unmodified input timeline path (and burn nothing in), so an overlay failure
never aborts the pipeline. -/
theorem overlay_failure_returns_input (video_path output_path cta : String)
    (pts : List OverlayPoint) (d : ℚ) :
    add_text_overlay_intervals video_path pts output_path false =
      (video_path, []) ∧
    add_call_to_action video_path cta output_path d false =
      (video_path, none) := by
  exact ⟨rfl, rfl⟩

/-- C10: concatenating an empty list always raises
ValueError("No videos to concatenate"), and a single-element list is
handled by a plain file copy, before any transition or re-encode dispatch. -/
theorem concatenate_edge_cases (wt : Bool) :
    concatenate_videos_mode 0 wt =
      ConcatMode.raisesValueError ("No videos to concatenate") ∧
    concatenate_videos_mode 1 wt = ConcatMode.copySingle := by
  exact ⟨rfl, rfl⟩

/-- Helper: when every provider in a list fails, the chain walk attempts all
of them, in order, and resolves nothing. -/
theorem attemptChain_all_fail (fails : Provider → Bool) (l : List Provider)
    (h : ∀ p ∈ l, fails p = true) : attemptChain fails l = (l, none) := by
  induction l with
  | nil => rfl
  | cons p rest ih =>
    have hp : fails p = true := h p (by simp)
    have hrest := ih (fun q hq => h q (by simp [hq]))
    simp [attemptChain, hp, hrest]

/-- C4 counterexample to the claim as stated: with every API key present and
every provider failing, the loop attempts the five real providers in order
and then falls through to the local placeholder (twice); the outcome is a
silent skip of that image, not a typed AllProvidersExhausted failure, and
no error referencing the last provider is ever raised. -/
theorem provider_chain_no_typed_exhaustion :
    resolve_one_image
        { pexels_key := true, huggingface_key := true,
          stability_key := true, openai_key := true }
        (fun _ => true) true =
      ([Provider.pexels, Provider.unsplash, Provider.huggingface,
        Provider.stability, Provider.dalle, Provider.placeholder,
        Provider.placeholder], ImageResolution.skippedImage) := by
  rfl

/-- C4 (amended): over an all-failing environment-gated provider list, the
loop attempts the providers strictly in the fixed priority order given by
`provider_order`, each exactly once (the Hugging Face provider internally
re-requests on a 503 model-loading status, sleeping a fixed 20 s delay, at
most `hf_max_retries = 3` times), then falls back to the local placeholder
renderer; when the placeholder fails twice the image is silently skipped,
and when only the chain fails the placeholder resolves the image - in no
case is a typed AllProvidersExhausted error raised. -/
theorem provider_chain_exhaustion_policy (env : ApiEnv)
    (fails : Provider → Bool) (b : Bool) (hall : ∀ p, fails p = true) :
    resolve_one_image env fails b =
      (provider_order env ++ [Provider.placeholder, Provider.placeholder],
        if b then ImageResolution.skippedImage
        else ImageResolution.resolved Provider.placeholder) ∧
    (generate_with_huggingface_run 503 503 503).1 = hf_max_retries := by
  refine ⟨?_, rfl⟩
  have hchain := attemptChain_all_fail fails (provider_order env)
    (fun p _ => hall p)
  unfold resolve_one_image
  rw [hchain]
  simp only [hall Provider.placeholder, if_true]
  cases b <;> simp

/-- Witness for C4 with all keys present and every provider failing. -/
theorem provider_chain_exhaustion_policy_witness :
    resolve_one_image
        { pexels_key := true, huggingface_key := true,
          stability_key := true, openai_key := true }
        (fun _ => true) true =
      (provider_order
          { pexels_key := true, huggingface_key := true,
            stability_key := true, openai_key := true } ++
        [Provider.placeholder, Provider.placeholder],
        if true then ImageResolution.skippedImage
        else ImageResolution.resolved Provider.placeholder) ∧
    (generate_with_huggingface_run 503 503 503).1 = hf_max_retries :=
  provider_chain_exhaustion_policy
    { pexels_key := true, huggingface_key := true,
      stability_key := true, openai_key := true }
    (fun _ => true) true (fun _ => rfl)

/-- Helper: consuming the next video-pool asset (appended to the segments
only on success) preserves the loop invariant. -/
theorem good_append_video (s : GenState) (h : GoodState s) (b : Bool) :
    GoodState
      { video_idx := s.video_idx + 1, image_idx := s.image_idx,
        segments :=
          if b then s.segments ++ [(0, s.video_idx)] else s.segments } := by
  obtain ⟨hnd, hv, hi⟩ := h
  cases b with
  | false => exact ⟨hnd, fun j hj => Nat.lt_succ_of_lt (hv j hj), hi⟩
  | true =>
    refine ⟨?_, ?_, ?_⟩
    · show (s.segments ++ [(0, s.video_idx)]).Nodup
      rw [List.nodup_append]
      refine ⟨hnd, List.nodup_singleton _, ?_⟩
      intro a ha hb
      rw [List.mem_singleton] at hb
      subst hb
      exact absurd (hv _ ha) (lt_irrefl _)
    · show ∀ j : ℕ,
        (0, j) ∈ s.segments ++ [(0, s.video_idx)] → j < s.video_idx + 1
      intro j hj
      rcases List.mem_append.mp hj with h1 | h1
      · exact Nat.lt_succ_of_lt (hv j h1)
      · rw [List.mem_singleton] at h1
        simp only [Prod.mk.injEq] at h1
        omega
    · show ∀ j : ℕ,
        (1, j) ∈ s.segments ++ [(0, s.video_idx)] → j < s.image_idx
      intro j hj
      rcases List.mem_append.mp hj with h1 | h1
      · exact hi j h1
      · rw [List.mem_singleton] at h1
        simp only [Prod.mk.injEq] at h1
        omega

/-- Helper: consuming the next image-pool asset preserves the invariant. -/
theorem good_append_image (s : GenState) (h : GoodState s) (b : Bool) :
    GoodState
      { video_idx := s.video_idx, image_idx := s.image_idx + 1,
        segments :=
          if b then s.segments ++ [(1, s.image_idx)] else s.segments } := by
  obtain ⟨hnd, hv, hi⟩ := h
  cases b with
  | false => exact ⟨hnd, hv, fun j hj => Nat.lt_succ_of_lt (hi j hj)⟩
  | true =>
    refine ⟨?_, ?_, ?_⟩
    · show (s.segments ++ [(1, s.image_idx)]).Nodup
      rw [List.nodup_append]
      refine ⟨hnd, List.nodup_singleton _, ?_⟩
      intro a ha hb
      rw [List.mem_singleton] at hb
      subst hb
      exact absurd (hi _ ha) (lt_irrefl _)
    · show ∀ j : ℕ,
        (0, j) ∈ s.segments ++ [(1, s.image_idx)] → j < s.video_idx
      intro j hj
      rcases List.mem_append.mp hj with h1 | h1
      · exact hv j h1
      · rw [List.mem_singleton] at h1
        simp only [Prod.mk.injEq] at h1
        omega
    · show ∀ j : ℕ,
        (1, j) ∈ s.segments ++ [(1, s.image_idx)] → j < s.image_idx + 1
      intro j hj
      rcases List.mem_append.mp hj with h1 | h1
      · exact Nat.lt_succ_of_lt (hi j h1)
      · rw [List.mem_singleton] at h1
        simp only [Prod.mk.injEq] at h1
        omega

/-- Helper: every step of the generation loop preserves the invariant. -/
theorem genStep_good (nV nI : ℕ) (ok : ℕ → Bool) (pos t : ℕ) (s : GenState)
    (h : GoodState s) : GoodState (genStep nV nI ok pos t s) := by
  unfold genStep
  split
  · split
    · exact good_append_video s h (ok pos)
    · exact h
  · split
    · split
      · exact good_append_image s h (ok pos)
      · exact h
    · exact h

/-- Helper: the whole loop preserves the invariant. -/
theorem genRun_good (nV nI : ℕ) (ok : ℕ → Bool) (l : List (ℕ × ℕ))
    (s : GenState) (h : GoodState s) : GoodState (genRun nV nI ok l s) := by
  induction l generalizing s with
  | nil => exact h
  | cons pt rest ih => exact ih _ (genStep_good nV nI ok pt.1 pt.2 s h)

/-- Helper: one step appends at most one segment. -/
theorem genStep_segments_length (nV nI : ℕ) (ok : ℕ → Bool) (pos t : ℕ)
    (s : GenState) :
    (genStep nV nI ok pos t s).segments.length ≤ s.segments.length + 1 := by
  unfold genStep
  split
  · split
    · dsimp only
      split <;> simp
    · omega
  · split
    · split
      · dsimp only
        split <;> simp
      · omega
    · omega

/-- Helper: the loop appends at most one segment per pattern position. -/
theorem genRun_segments_length (nV nI : ℕ) (ok : ℕ → Bool)
    (l : List (ℕ × ℕ)) (s : GenState) :
    (genRun nV nI ok l s).segments.length ≤ s.segments.length + l.length := by
  induction l generalizing s with
  | nil => simp [genRun]
  | cons pt rest ih =>
    have h1 := genStep_segments_length nV nI ok pt.1 pt.2 s
    have h2 := ih (genStep nV nI ok pt.1 pt.2 s)
    simp only [genRun, List.length_cons]
    omega

/-- Helper: the video cursor advances exactly on video slots with remaining
pool, regardless of whether the render succeeded. -/
theorem genStep_video_idx (nV nI : ℕ) (ok : ℕ → Bool) (pos t : ℕ)
    (s : GenState) :
    (genStep nV nI ok pos t s).video_idx =
      if t = 0 ∧ s.video_idx < nV then s.video_idx + 1
      else s.video_idx := by
  unfold genStep
  split
  · rename_i ht
    split
    · rename_i hv
      simp [ht, hv]
    · rename_i hv
      simp [ht, hv]
  · rename_i ht
    split
    · split
      · simp [ht]
      · simp [ht]
    · simp [ht]

/-- Helper: the image cursor advances exactly on image slots with remaining
pool, regardless of whether the render succeeded. -/
theorem genStep_image_idx (nV nI : ℕ) (ok : ℕ → Bool) (pos t : ℕ)
    (s : GenState) :
    (genStep nV nI ok pos t s).image_idx =
      if t ≠ 0 ∧ t = 1 ∧ s.image_idx < nI then s.image_idx + 1
      else s.image_idx := by
  unfold genStep
  split
  · rename_i ht
    split
    · simp [ht]
    · simp [ht]
  · rename_i ht
    split
    · rename_i ht1
      split
      · rename_i hi
        simp [ht, ht1, hi]
      · rename_i hi
        simp [ht, ht1, hi]
    · rename_i ht1
      simp [ht, ht1]

/-- Helper: after the loop, the video cursor equals the number of video
slots walked, capped by the pool size. -/
theorem genRun_video_idx (nV nI : ℕ) (ok : ℕ → Bool) (l : List (ℕ × ℕ))
    (s : GenState) (h : s.video_idx ≤ nV) :
    (genRun nV nI ok l s).video_idx =
      min nV (s.video_idx + l.countP (fun pt => pt.2 == 0)) := by
  induction l generalizing s with
  | nil =>
    simp only [genRun, List.countP_nil, Nat.add_zero]
    omega
  | cons pt rest ih =>
    simp only [genRun, List.countP_cons]
    have hstep := genStep_video_idx nV nI ok pt.1 pt.2 s
    have hle : (genStep nV nI ok pt.1 pt.2 s).video_idx ≤ nV := by
      rw [hstep]
      split <;> omega
    rw [ih _ hle, hstep]
    by_cases ht : pt.2 = 0 <;> by_cases hv : s.video_idx < nV <;>
      simp [ht, hv] <;> omega

/-- Helper: after the loop, the image cursor equals the number of image
slots walked, capped by the pool size. -/
theorem genRun_image_idx (nV nI : ℕ) (ok : ℕ → Bool) (l : List (ℕ × ℕ))
    (s : GenState) (h : s.image_idx ≤ nI) :
    (genRun nV nI ok l s).image_idx =
      min nI (s.image_idx + l.countP (fun pt => pt.2 == 1)) := by
  induction l generalizing s with
  | nil =>
    simp only [genRun, List.countP_nil, Nat.add_zero]
    omega
  | cons pt rest ih =>
    simp only [genRun, List.countP_cons]
    have hstep := genStep_image_idx nV nI ok pt.1 pt.2 s
    have hle : (genStep nV nI ok pt.1 pt.2 s).image_idx ≤ nI := by
      rw [hstep]
      split <;> omega
    rw [ih _ hle, hstep]
    by_cases ht0 : pt.2 = 0 <;> by_cases ht : pt.2 = 1 <;>
      by_cases hi : s.image_idx < nI <;> simp [ht0, ht, hi] <;> omega

/-- C9: over the fixed 25-slot pattern, with stock-video pool size `nV`,
image pool size `nI` and an arbitrary per-position render success predicate
`ok`, the generation loop assigns each pool asset to at most one output
segment (the recorded (kind, pool index) pairs are pairwise distinct),
produces at most `pattern.length = 25` segments, and its pool cursors end at
`min nV 20` and `min nI 5` independently of `ok` - a failed render still
consumes its asset permanently. -/
theorem generate_single_video_pool_discipline (nV nI : ℕ) (ok : ℕ → Bool) :
    (generate_single_video_run nV nI ok).segments.Nodup ∧
    (generate_single_video_run nV nI ok).segments.length ≤ pattern.length ∧
    (generate_single_video_run nV nI ok).video_idx = min nV 20 ∧
    (generate_single_video_run nV nI ok).image_idx = min nI 5 := by
  have hgood : GoodState (generate_single_video_run nV nI ok) :=
    genRun_good nV nI ok pattern.enum _ ⟨List.nodup_nil, by simp, by simp⟩
  refine ⟨hgood.1, ?_, ?_, ?_⟩
  · have hlen := genRun_segments_length nV nI ok pattern.enum
      { video_idx := 0, image_idx := 0, segments := [] }
    simpa [generate_single_video_run] using hlen
  · have hv := genRun_video_idx nV nI ok pattern.enum
      { video_idx := 0, image_idx := 0, segments := [] } (by simp)
    have hc : pattern.enum.countP (fun pt => pt.2 == 0) = 20 := by decide
    simpa [generate_single_video_run, hc] using hv
  · have hi := genRun_image_idx nV nI ok pattern.enum
      { video_idx := 0, image_idx := 0, segments := [] } (by simp)
    have hc : pattern.enum.countP (fun pt => pt.2 == 1) = 5 := by decide
    simpa [generate_single_video_run, hc] using hi

/-- C6 counterexample to the claim as stated: for timeline duration
`T = 3 > 0` and the non-empty content "hi" (one key phrase), the single
generated point starts at `3/2` with duration `2.0`, and
`3/2 + 2 > 3` - its end exceeds the timeline duration. -/
theorem engagement_point_exceeds_timeline :
    generate_engagement_points 3 ("hi") =
      [{ text := ("hi"), start := 3 / 2, duration := 2 }] ∧
    ¬ ((3 : ℚ) / 2 + 2 ≤ 3) := by
  have hk : key_phrases ("hi") = [("hi")] := by decide
  constructor
  · unfold generate_engagement_points
    rw [hk]
    norm_num [List.enum, List.enumFrom]
  · norm_num

/-- C6 (amended): for every content string, the points are evenly spaced at
interval `T / (numPhrases + 1)` with fixed duration 2.0 s, and no point's
start plus duration exceeds `T` provided the timeline is long enough,
namely `T ≥ 2 * (numPhrases + 1)` (with at most 5 phrases, `T ≥ 12` always
suffices); for shorter timelines a point may extend past `T`. -/
theorem engagement_points_within_timeline (T : ℚ) (content : String)
    (hT : 2 * (((key_phrases content).length : ℚ) + 1) ≤ T) :
    ∀ p ∈ generate_engagement_points T content, p.start + p.duration ≤ T := by
  intro p hp
  unfold generate_engagement_points at hp
  rw [List.mem_map] at hp
  obtain ⟨pr, hmem, rfl⟩ := hp
  have hidx : pr.1 < (key_phrases content).length := by
    have h1 : (pr.1, pr.2) ∈ (key_phrases content).enum := by
      simpa using hmem
    rw [List.mk_mem_enum_iff_getElem?] at h1
    exact (List.getElem?_eq_some.mp h1).1
  dsimp only
  have hc : (0 : ℚ) < ((key_phrases content).length : ℚ) + 1 := by positivity
  have hik : ((pr.1 : ℚ)) + 1 ≤ ((key_phrases content).length : ℚ) := by
    exact_mod_cast Nat.succ_le_of_lt hidx
  have hT0 : (0 : ℚ) ≤ T := by nlinarith
  rw [div_mul_eq_mul_div, div_add' _ _ _ hc.ne', div_le_iff₀ hc]
  nlinarith [mul_nonneg hT0 (sub_nonneg.mpr hik)]

/-- Helper for the C6 witness: the overlay points at `T = 4` for the
content "hi". -/
theorem engagement_points_at_four :
    generate_engagement_points 4 ("hi") =
      [{ text := ("hi"), start := 2, duration := 2 }] := by
  have hk : key_phrases ("hi") = [("hi")] := by decide
  unfold generate_engagement_points
  rw [hk]
  norm_num [List.enum, List.enumFrom]

/-- Witness for C6 at `T = 4` and content "hi". -/
theorem engagement_points_within_timeline_witness :
    ({ text := ("hi"), start := 2, duration := 2 } : OverlayPoint) ∈
      generate_engagement_points 4 ("hi") ∧
    ({ text := ("hi"), start := 2, duration := 2 } : OverlayPoint).start +
      ({ text := ("hi"), start := 2, duration := 2 } : OverlayPoint).duration ≤
      (4 : ℚ) :=
  ⟨by rw [engagement_points_at_four]; exact List.mem_singleton_self _,
    engagement_points_within_timeline 4 ("hi")
      (by rw [show key_phrases ("hi") = [("hi")] from by decide]; norm_num)
      { text := ("hi"), start := 2, duration := 2 }
      (by rw [engagement_points_at_four]; exact List.mem_singleton_self _)⟩

end VideoGen
